import Mathlib

/-!
# Verification of the Sense HAT calibrated sensor driver layer

Shallow embedding of the `sensehat-rs` register-driver core:

* `src/hts221.rs` — HTS221 humidity/temperature driver with two-point
  linear calibration computed at construction;
* `src/lps25h.rs` — LPS25H pressure/temperature driver with fixed
  conversion formulas;
* `src/rh.rs` — the `RelativeHumidity` unit type;
* `src/lib.rs` — the `SenseHat` facade with its status-bit gating.

Modelling conventions:

* Rust `f64` arithmetic is modelled by `Fp`: exact rational arithmetic
  extended with `+inf`, `-inf` and `NaN`, following the IEEE-754 special
  value rules for division by zero and operations on infinities (no
  rounding, no signed zero).  Every concrete value appearing in the
  claims (0.5, 35.0, 1000.0, 42.5) is exactly representable and exactly
  computed in binary64, so the exact model agrees with the machine
  result there.
* An I2C device is a `Dev E`: a response function for SMBus single-byte
  register reads and writes, fallible with a transport error `E`.
* A driver computation is an `M E α`: the `Except E α` outcome paired
  with the list of bus transactions attempted (in order, including the
  failing one).  Sequencing is `M.bind`, which short-circuits on the
  first error exactly as Rust's `?` operator does.
* Machine integers: register bytes are `ℕ` masked with `% 256` at the
  read boundary (the Rust read returns `u8`); `LittleEndian::read_i16`
  becomes `i16le` over `ℤ`.
-/

namespace SenseHatSpec

/-! ## Extended-rational model of `f64` -/

/-- Model of a Rust `f64`: an exact rational, one of the two infinities,
or NaN.  Arithmetic follows the IEEE-754 special-value rules without
rounding and without signed zero. -/
inductive Fp where
  | fin : ℚ → Fp
  | pinf : Fp
  | ninf : Fp
  | nan : Fp
deriving DecidableEq, Repr

namespace Fp

/-- Negation. -/
def neg : Fp → Fp
  | fin q => fin (-q)
  | pinf => ninf
  | ninf => pinf
  | nan => nan

/-- Addition: `+inf + -inf = NaN`, NaN propagates. -/
def add : Fp → Fp → Fp
  | nan, _ => nan
  | _, nan => nan
  | fin a, fin b => fin (a + b)
  | fin _, pinf => pinf
  | fin _, ninf => ninf
  | pinf, fin _ => pinf
  | ninf, fin _ => ninf
  | pinf, pinf => pinf
  | ninf, ninf => ninf
  | pinf, ninf => nan
  | ninf, pinf => nan

/-- Subtraction, as `a + (-b)`. -/
def sub (a b : Fp) : Fp := a.add b.neg

/-- Multiplication: `0 * inf = NaN`, NaN propagates, signs as usual. -/
def mul : Fp → Fp → Fp
  | nan, _ => nan
  | _, nan => nan
  | fin a, fin b => fin (a * b)
  | fin a, pinf => if a = 0 then nan else if 0 < a then pinf else ninf
  | fin a, ninf => if a = 0 then nan else if 0 < a then ninf else pinf
  | pinf, fin b => if b = 0 then nan else if 0 < b then pinf else ninf
  | ninf, fin b => if b = 0 then nan else if 0 < b then ninf else pinf
  | pinf, pinf => pinf
  | pinf, ninf => ninf
  | ninf, pinf => ninf
  | ninf, ninf => pinf

/-- Division: a nonzero finite value divided by zero is a signed
infinity, `0/0` is NaN, `inf/inf` is NaN, finite over infinite is zero. -/
def div : Fp → Fp → Fp
  | nan, _ => nan
  | _, nan => nan
  | fin a, fin b =>
      if b = 0 then (if a = 0 then nan else if 0 < a then pinf else ninf)
      else fin (a / b)
  | fin _, pinf => fin 0
  | fin _, ninf => fin 0
  | pinf, fin b => if 0 ≤ b then pinf else ninf
  | ninf, fin b => if 0 ≤ b then ninf else pinf
  | pinf, pinf => nan
  | pinf, ninf => nan
  | ninf, pinf => nan
  | ninf, ninf => nan

/-- A value is finite when it is `fin q` for some rational `q`;
`+inf`, `-inf` and NaN are the non-finite values. -/
def finite : Fp → Bool
  | fin _ => true
  | _ => false

/-- Embed an integer (a raw sensor code) into the `f64` model; every
`i16` converts to `f64` exactly. -/
def ofInt (i : ℤ) : Fp := fin (i : ℚ)

end Fp

/-! ## Bus transport and driver computations -/

/-- One SMBus transaction: a single-register byte read or byte write. -/
inductive BusOp where
  | read : ℕ → BusOp
  | write : ℕ → ℕ → BusOp
deriving DecidableEq, Repr

/-- An I2C device at a fixed address: responses to register reads and
writes, each fallible with a transport error `E`
(the `i2cdev::core::I2CDevice` contract consumed by the drivers). -/
structure Dev (E : Type) where
  readReg : ℕ → Except E ℕ
  writeReg : ℕ → ℕ → Except E Unit

/-- A driver computation: the `Except` outcome paired with the ordered
list of bus transactions attempted (the failing transaction included). -/
def M (E : Type) (α : Type) : Type := Except E α × List BusOp

/-- Sequencing of driver computations: the first error short-circuits,
exactly as Rust's `?` operator does; traces concatenate. -/
def M.bind {E α β : Type} : M E α → (α → M E β) → M E β
  | (Except.error e, tr), _ => (Except.error e, tr)
  | (Except.ok a, tr), f => ((f a).1, tr ++ (f a).2)

/-- A computation that returns `a` without touching the bus. -/
def M.pure {E α : Type} (a : α) : M E α := (Except.ok a, [])

/-- A computation that fails with `e` without touching the bus. -/
def M.throw {E α : Type} (e : E) : M E α := (Except.error e, [])

/-- Model of `smbus_read_byte_data`: one read transaction; the result is
a `u8`, hence the mask. -/
def rd {E : Type} (dev : Dev E) (reg : ℕ) : M E ℕ :=
  ((dev.readReg reg).map (· % 256), [BusOp.read reg])

/-- Model of `smbus_write_byte_data`: one write transaction. -/
def wr {E : Type} (dev : Dev E) (reg v : ℕ) : M E Unit :=
  (dev.writeReg reg v, [BusOp.write reg v])

/-- Embedding of `LittleEndian::read_i16` on the buffer `[lo, hi]`: the signed 16-bit
little-endian value, as an integer. -/
def i16le (lo hi : ℕ) : ℤ :=
  let u : ℕ := lo % 256 + 256 * (hi % 256)
  if u < 32768 then (u : ℤ) else (u : ℤ) - 65536

/-- An infallible device whose register contents are given by `regs`
(writes are accepted and ignored); used to state properties that
quantify over register contents. -/
def devOfRegs (regs : ℕ → ℕ) : Dev Empty where
  readReg := fun reg => Except.ok (regs reg)
  writeReg := fun _ _ => Except.ok ()

/-! ## HTS221 humidity/temperature driver (`src/hts221.rs`) -/

namespace Hts221

def REG_AV_CONF : ℕ := 0x10
def REG_CTRL1 : ℕ := 0x20
def REG_STATUS : ℕ := 0x27
def REG_HUMIDITY_OUT_L : ℕ := 0x28
def REG_HUMIDITY_OUT_H : ℕ := 0x29
def REG_TEMP_OUT_L : ℕ := 0x2a
def REG_TEMP_OUT_H : ℕ := 0x2b
def REG_H0_H_2 : ℕ := 0x30
def REG_H1_H_2 : ℕ := 0x31
def REG_T0_C_8 : ℕ := 0x32
def REG_T1_C_8 : ℕ := 0x33
def REG_T1_T0 : ℕ := 0x35
def REG_H0_T0_OUT : ℕ := 0x36
def REG_H1_T0_OUT : ℕ := 0x3a
def REG_T0_OUT : ℕ := 0x3c
def REG_T1_OUT : ℕ := 0x3e

/-- The state of a constructed `Hts221` driver apart from its device
handle: the four calibration scalars `temp_m`, `temp_c`, `hum_m`,
`hum_c`, written once at construction and immutable afterwards (no
method of the Rust driver assigns to them). -/
structure Calib where
  temp_m : Fp
  temp_c : Fp
  hum_m : Fp
  hum_c : Fp
deriving DecidableEq, Repr

/-- Embedding of `Hts221::new`: the init writes followed by the calibration readout
and the computation of the four linear-model scalars, transcribed
transaction by transaction from `src/hts221.rs` (note `REG_T1_T0` is
read twice, once for each temperature calibration point). -/
def new {E : Type} (dev : Dev E) : M E Calib :=
  M.bind (wr dev REG_CTRL1 0x87) fun _ =>
  M.bind (wr dev REG_AV_CONF 0x1b) fun _ =>
  M.bind (rd dev REG_T0_C_8) fun b0 =>
  M.bind (rd dev REG_T1_T0) fun b1 =>
  let t0 : Fp := (Fp.ofInt (i16le b0 (b1 &&& 0x03))).div (Fp.fin 8)
  M.bind (rd dev REG_T1_C_8) fun b2 =>
  M.bind (rd dev REG_T1_T0) fun b3 =>
  let t1 : Fp := (Fp.ofInt (i16le b2 ((b3 &&& 0x0C) >>> 2))).div (Fp.fin 8)
  M.bind (rd dev REG_T0_OUT) fun b4 =>
  M.bind (rd dev (REG_T0_OUT + 1)) fun b5 =>
  let t0_out : Fp := Fp.ofInt (i16le b4 b5)
  M.bind (rd dev REG_T1_OUT) fun b6 =>
  M.bind (rd dev (REG_T1_OUT + 1)) fun b7 =>
  let t1_out : Fp := Fp.ofInt (i16le b6 b7)
  M.bind (rd dev REG_H0_H_2) fun b8 =>
  let h0 : Fp := (Fp.fin (b8 : ℚ)).div (Fp.fin 2)
  M.bind (rd dev REG_H1_H_2) fun b9 =>
  let h1 : Fp := (Fp.fin (b9 : ℚ)).div (Fp.fin 2)
  M.bind (rd dev REG_H0_T0_OUT) fun b10 =>
  M.bind (rd dev (REG_H0_T0_OUT + 1)) fun b11 =>
  let h0_t0_out : Fp := Fp.ofInt (i16le b10 b11)
  M.bind (rd dev REG_H1_T0_OUT) fun b12 =>
  M.bind (rd dev (REG_H1_T0_OUT + 1)) fun b13 =>
  let h1_t0_out : Fp := Fp.ofInt (i16le b12 b13)
  let temp_m : Fp := (t1.sub t0).div (t1_out.sub t0_out)
  let temp_c : Fp := t0.sub (temp_m.mul t0_out)
  let hum_m : Fp := (h1.sub h0).div (h1_t0_out.sub h0_t0_out)
  let hum_c : Fp := h0.sub (hum_m.mul h0_t0_out)
  M.pure ⟨temp_m, temp_c, hum_m, hum_c⟩

/-- Embedding of `Hts221::status`: read the status bitfield. -/
def status {E : Type} (dev : Dev E) : M E ℕ :=
  rd dev REG_STATUS

/-- Embedding of `Hts221::get_relative_humidity`: low byte then high byte, assembled
as a signed 16-bit little-endian raw code. -/
def get_relative_humidity {E : Type} (dev : Dev E) : M E ℤ :=
  M.bind (rd dev REG_HUMIDITY_OUT_L) fun lo =>
  M.bind (rd dev REG_HUMIDITY_OUT_H) fun hi =>
  M.pure (i16le lo hi)

/-- Embedding of `Hts221::get_relative_humidity_percent`: the raw code through the
humidity linear model. -/
def get_relative_humidity_percent {E : Type} (c : Calib) (dev : Dev E) :
    M E Fp :=
  M.bind (get_relative_humidity dev) fun raw =>
  M.pure (((Fp.ofInt raw).mul c.hum_m).add c.hum_c)

/-- Embedding of `Hts221::get_temperature`: low byte then high byte, assembled as a
signed 16-bit little-endian raw code. -/
def get_temperature {E : Type} (dev : Dev E) : M E ℤ :=
  M.bind (rd dev REG_TEMP_OUT_L) fun lo =>
  M.bind (rd dev REG_TEMP_OUT_H) fun hi =>
  M.pure (i16le lo hi)

/-- Embedding of `Hts221::get_temperature_celcius`: the raw code through the
temperature linear model. -/
def get_temperature_celcius {E : Type} (c : Calib) (dev : Dev E) :
    M E Fp :=
  M.bind (get_temperature dev) fun raw =>
  M.pure (((Fp.ofInt raw).mul c.temp_m).add c.temp_c)

end Hts221

/-! ## LPS25H pressure/temperature driver (`src/lps25h.rs`) -/

namespace Lps25h

def REG_RES_CONF : ℕ := 0x10
def REG_CTRL_REG_1 : ℕ := 0x20
def REG_CTRL_REG_2 : ℕ := 0x21
def REG_STATUS_REG : ℕ := 0x27
def REG_PRESS_OUT_XL : ℕ := 0x28
def REG_PRESS_OUT_L : ℕ := 0x29
def REG_PRESS_OUT_H : ℕ := 0x2a
def REG_TEMP_OUT_L : ℕ := 0x2b
def REG_TEMP_OUT_H : ℕ := 0x2c
def REG_FIFO_CTRL : ℕ := 0x2e

/-- Embedding of `Lps25h::new`: the four init writes; the chip has no calibration
registers, so construction carries no state beyond the device handle. -/
def new {E : Type} (dev : Dev E) : M E Unit :=
  M.bind (wr dev REG_CTRL_REG_1 0xc4) fun _ =>
  M.bind (wr dev REG_RES_CONF 0x05) fun _ =>
  M.bind (wr dev REG_FIFO_CTRL 0xc0) fun _ =>
  M.bind (wr dev REG_CTRL_REG_2 0x40) fun _ =>
  M.pure ()

/-- Embedding of `Lps25h::status`: read the status bitfield. -/
def status {E : Type} (dev : Dev E) : M E ℕ :=
  rd dev REG_STATUS_REG

/-- Embedding of `Lps25h::get_temp`: low byte then high byte, assembled as a signed
16-bit little-endian raw code. -/
def get_temp {E : Type} (dev : Dev E) : M E ℤ :=
  M.bind (rd dev REG_TEMP_OUT_L) fun lo =>
  M.bind (rd dev REG_TEMP_OUT_H) fun hi =>
  M.pure (i16le lo hi)

/-- Embedding of `Lps25h::get_temp_celcius`: the fixed formula `raw/480.0 + 42.5`. -/
def get_temp_celcius {E : Type} (dev : Dev E) : M E Fp :=
  M.bind (get_temp dev) fun raw =>
  M.pure (((Fp.ofInt raw).div (Fp.fin 480)).add (Fp.fin (85 / 2)))

/-- Embedding of `Lps25h::get_pressure`: bytes XL, L, H into a 4-byte buffer whose
last byte stays zero, read as an unsigned 32-bit little-endian value
(`LittleEndian::read_u32`), so the result is below `2^24`. -/
def get_pressure {E : Type} (dev : Dev E) : M E ℕ :=
  M.bind (rd dev REG_PRESS_OUT_XL) fun b0 =>
  M.bind (rd dev REG_PRESS_OUT_L) fun b1 =>
  M.bind (rd dev REG_PRESS_OUT_H) fun b2 =>
  M.pure (b0 % 256 + 256 * (b1 % 256) + 65536 * (b2 % 256))

/-- Embedding of `Lps25h::get_pressure_hpa`: the fixed formula `raw/4096.0`. -/
def get_pressure_hpa {E : Type} (dev : Dev E) : M E Fp :=
  M.bind (get_pressure dev) fun raw =>
  M.pure ((Fp.fin (raw : ℚ)).div (Fp.fin 4096))

end Lps25h

/-! ## Unit types -/

/-- Embedding of `RelativeHumidity` from `src/rh.rs`: a plain wrapper around the
percentage value, no clamping. -/
structure RelativeHumidity where
  value : Fp
deriving DecidableEq, Repr

/-- Embedding of `RelativeHumidity::from_percent`. -/
def RelativeHumidity.from_percent (pc : Fp) : RelativeHumidity := ⟨pc⟩

/-- Embedding of `RelativeHumidity::as_percent`. -/
def RelativeHumidity.as_percent (self : RelativeHumidity) : Fp :=
  self.value

/-- Modelled from the spec: the `measurements::Temperature` unit value
object (the `measurements` crate is outside `src/`); `from_celsius`
wraps the degrees-Celsius scalar unchanged. -/
structure Temperature where
  celsius : Fp
deriving DecidableEq, Repr

/-- Modelled from the spec: `Temperature::from_celsius`. -/
def Temperature.from_celsius (c : Fp) : Temperature := ⟨c⟩

/-- Modelled from the spec: the `measurements::Pressure` unit value
object (the `measurements` crate is outside `src/`);
`from_hectopascals` wraps the hectopascal scalar unchanged. -/
structure Pressure where
  hectopascals : Fp
deriving DecidableEq, Repr

/-- Modelled from the spec: `Pressure::from_hectopascals`. -/
def Pressure.from_hectopascals (p : Fp) : Pressure := ⟨p⟩

/-! ## The `SenseHat` facade (`src/lib.rs`) -/

/-- The error enum of `src/lib.rs`; transport errors arrive through the
`From<LinuxI2CError>` conversion as `I2CError`.  Payloads of the
variants whose types live outside `src/` are elided. -/
inductive SenseHatError (E : Type) where
  | NotReady : SenseHatError E
  | GenericError : SenseHatError E
  | PositionOutOfBounds : SenseHatError E
  | I2CError : E → SenseHatError E
  | LSM9DS1Error : SenseHatError E
  | FramebufferError : SenseHatError E
deriving DecidableEq, Repr

/-- Lift a driver computation into the facade's error type: the `?`
operator's `From` conversion wrapping the transport error in
`I2CError`, leaving the trace unchanged. -/
def liftDriver {E α : Type} (x : M E α) : M (SenseHatError E) α :=
  (match x.1 with
   | Except.error e => Except.error (SenseHatError.I2CError e)
   | Except.ok a => Except.ok a, x.2)

namespace SenseHat

/-- Embedding of `SenseHat::get_temperature_from_pressure`: status read, bit-0 gate,
then the LPS25H temperature conversion. -/
def get_temperature_from_pressure {E : Type} (dev : Dev E) :
    M (SenseHatError E) Temperature :=
  M.bind (liftDriver (Lps25h.status dev)) fun status =>
  if status &&& 1 ≠ 0 then
    M.bind (liftDriver (Lps25h.get_temp_celcius dev)) fun c =>
    M.pure (Temperature.from_celsius c)
  else
    M.throw SenseHatError.NotReady

/-- Embedding of `SenseHat::get_pressure`: status read, bit-1 gate, then the LPS25H
pressure conversion. -/
def get_pressure {E : Type} (dev : Dev E) :
    M (SenseHatError E) Pressure :=
  M.bind (liftDriver (Lps25h.status dev)) fun status =>
  if status &&& 2 ≠ 0 then
    M.bind (liftDriver (Lps25h.get_pressure_hpa dev)) fun p =>
    M.pure (Pressure.from_hectopascals p)
  else
    M.throw SenseHatError.NotReady

/-- Embedding of `SenseHat::get_temperature_from_humidity`: status read, bit-0 gate,
then the HTS221 calibrated temperature conversion. -/
def get_temperature_from_humidity {E : Type} (c : Hts221.Calib)
    (dev : Dev E) : M (SenseHatError E) Temperature :=
  M.bind (liftDriver (Hts221.status dev)) fun status =>
  if status &&& 1 ≠ 0 then
    M.bind (liftDriver (Hts221.get_temperature_celcius c dev)) fun t =>
    M.pure (Temperature.from_celsius t)
  else
    M.throw SenseHatError.NotReady

/-- Embedding of `SenseHat::get_humidity`: status read, bit-1 gate, then the HTS221
calibrated humidity conversion. -/
def get_humidity {E : Type} (c : Hts221.Calib) (dev : Dev E) :
    M (SenseHatError E) RelativeHumidity :=
  M.bind (liftDriver (Hts221.status dev)) fun status =>
  if status &&& 2 ≠ 0 then
    M.bind (liftDriver (Hts221.get_relative_humidity_percent c dev)) fun p =>
    M.pure (RelativeHumidity.from_percent p)
  else
    M.throw SenseHatError.NotReady

/-- Embedding of `SenseHat::new` as far as this core is concerned: open and
initialise the humidity chip, then the pressure chip (in the field
order of the Rust struct literal), then the components outside this
core (IMU, screen), whose outcomes are passed in as parameters.  The
handle holds the humidity calibration; any failure aborts construction
with that failure. -/
def new {E : Type} (humDev presDev : Dev E)
    (accel scrn : Except (SenseHatError E) Unit) :
    M (SenseHatError E) Hts221.Calib :=
  M.bind (liftDriver (Hts221.new humDev)) fun calib =>
  M.bind (liftDriver (Lps25h.new presDev)) fun _ =>
  M.bind (accel, []) fun _ =>
  M.bind (scrn, []) fun _ =>
  M.pure calib

end SenseHat

/-! ## Transaction sequences and first-error cuts -/

/-- Run one bus operation against a device (the value read is
discarded; only success or failure matters). -/
def execOp {E : Type} (dev : Dev E) : BusOp → Except E ℕ
  | BusOp.read reg => dev.readReg reg
  | BusOp.write reg v => (dev.writeReg reg v).map fun _ => 0

/-- Run a fixed list of bus operations in order, stopping at the first
failure; returns the outcome and the list of operations attempted
(the failing one included). -/
def runOps {E : Type} (dev : Dev E) : List BusOp → Except E Unit × List BusOp
  | [] => (Except.ok (), [])
  | op :: rest =>
      match execOp dev op with
      | Except.error e => (Except.error e, [op])
      | Except.ok _ =>
          let r := runOps dev rest
          (r.1, op :: r.2)

/-- The fixed transaction order of `Hts221::new`: two init writes, then
the fourteen calibration reads, in source order. -/
def hts221NewOps : List BusOp :=
  [BusOp.write Hts221.REG_CTRL1 0x87,
   BusOp.write Hts221.REG_AV_CONF 0x1b,
   BusOp.read Hts221.REG_T0_C_8,
   BusOp.read Hts221.REG_T1_T0,
   BusOp.read Hts221.REG_T1_C_8,
   BusOp.read Hts221.REG_T1_T0,
   BusOp.read Hts221.REG_T0_OUT,
   BusOp.read (Hts221.REG_T0_OUT + 1),
   BusOp.read Hts221.REG_T1_OUT,
   BusOp.read (Hts221.REG_T1_OUT + 1),
   BusOp.read Hts221.REG_H0_H_2,
   BusOp.read Hts221.REG_H1_H_2,
   BusOp.read Hts221.REG_H0_T0_OUT,
   BusOp.read (Hts221.REG_H0_T0_OUT + 1),
   BusOp.read Hts221.REG_H1_T0_OUT,
   BusOp.read (Hts221.REG_H1_T0_OUT + 1)]

/-- The fixed transaction order of `Hts221::get_temperature`. -/
def hts221GetTemperatureOps : List BusOp :=
  [BusOp.read Hts221.REG_TEMP_OUT_L, BusOp.read Hts221.REG_TEMP_OUT_H]

/-- The fixed transaction order of `Hts221::get_relative_humidity`. -/
def hts221GetHumidityOps : List BusOp :=
  [BusOp.read Hts221.REG_HUMIDITY_OUT_L,
   BusOp.read Hts221.REG_HUMIDITY_OUT_H]

/-- The fixed transaction order of `Lps25h::get_pressure`. -/
def lps25hGetPressureOps : List BusOp :=
  [BusOp.read Lps25h.REG_PRESS_OUT_XL,
   BusOp.read Lps25h.REG_PRESS_OUT_L,
   BusOp.read Lps25h.REG_PRESS_OUT_H]

/-- The fixed transaction order of `Lps25h::new`: the four init
writes. -/
def lps25hNewOps : List BusOp :=
  [BusOp.write Lps25h.REG_CTRL_REG_1 0xc4,
   BusOp.write Lps25h.REG_RES_CONF 0x05,
   BusOp.write Lps25h.REG_FIFO_CTRL 0xc0,
   BusOp.write Lps25h.REG_CTRL_REG_2 0x40]

/-- The fixed transaction order of `Lps25h::get_temp`. -/
def lps25hGetTempOps : List BusOp :=
  [BusOp.read Lps25h.REG_TEMP_OUT_L, BusOp.read Lps25h.REG_TEMP_OUT_H]

/-- A device whose every transaction fails (transport error `Unit`). -/
def failDev : Dev Unit where
  readReg := fun _ => Except.error ()
  writeReg := fun _ _ => Except.error ()

/-- An infallible device over transport error `Unit` whose registers
all read zero. -/
def okZeroDev : Dev Unit where
  readReg := fun _ => Except.ok 0
  writeReg := fun _ _ => Except.ok ()

/-! ## Decoded calibration readings as functions of register contents

For an infallible device `devOfRegs regs`, each calibration quantity of
`Hts221::new` is a function of `regs`; the masks record that each bus
read returns a `u8`. -/

namespace Hts221

/-- Embedding of `T0` as decoded by `Hts221::new`: 8 bits from `REG_T0_C_8`, 2 bits
from `REG_T1_T0` (bits 0-1), through `read_i16`, divided by 8.0. -/
def calT0 (regs : ℕ → ℕ) : Fp :=
  (Fp.ofInt (i16le (regs REG_T0_C_8 % 256)
    ((regs REG_T1_T0 % 256) &&& 0x03))).div (Fp.fin 8)

/-- Embedding of `T1` as decoded by `Hts221::new`: 8 bits from `REG_T1_C_8`, 2 bits
from `REG_T1_T0` (bits 2-3), through `read_i16`, divided by 8.0. -/
def calT1 (regs : ℕ → ℕ) : Fp :=
  (Fp.ofInt (i16le (regs REG_T1_C_8 % 256)
    (((regs REG_T1_T0 % 256) &&& 0x0C) >>> 2))).div (Fp.fin 8)

/-- Embedding of `T0_OUT` as decoded by `Hts221::new`. -/
def calT0Out (regs : ℕ → ℕ) : Fp :=
  Fp.ofInt (i16le (regs REG_T0_OUT % 256) (regs (REG_T0_OUT + 1) % 256))

/-- Embedding of `T1_OUT` as decoded by `Hts221::new`. -/
def calT1Out (regs : ℕ → ℕ) : Fp :=
  Fp.ofInt (i16le (regs REG_T1_OUT % 256) (regs (REG_T1_OUT + 1) % 256))

/-- Embedding of `H0` as decoded by `Hts221::new`: one byte divided by 2.0. -/
def calH0 (regs : ℕ → ℕ) : Fp :=
  (Fp.fin ((regs REG_H0_H_2 % 256 : ℕ) : ℚ)).div (Fp.fin 2)

/-- Embedding of `H1` as decoded by `Hts221::new`: one byte divided by 2.0. -/
def calH1 (regs : ℕ → ℕ) : Fp :=
  (Fp.fin ((regs REG_H1_H_2 % 256 : ℕ) : ℚ)).div (Fp.fin 2)

/-- Embedding of `H0_T0_OUT` as decoded by `Hts221::new`. -/
def calH0T0Out (regs : ℕ → ℕ) : Fp :=
  Fp.ofInt (i16le (regs REG_H0_T0_OUT % 256)
    (regs (REG_H0_T0_OUT + 1) % 256))

/-- Embedding of `H1_T0_OUT` as decoded by `Hts221::new`. -/
def calH1T0Out (regs : ℕ → ℕ) : Fp :=
  Fp.ofInt (i16le (regs REG_H1_T0_OUT % 256)
    (regs (REG_H1_T0_OUT + 1) % 256))

/-- The temperature slope of the spec's formula,
`(T1 - T0) / (T1_OUT - T0_OUT)`. -/
def tempSlope (regs : ℕ → ℕ) : Fp :=
  ((calT1 regs).sub (calT0 regs)).div ((calT1Out regs).sub (calT0Out regs))

/-- The temperature intercept of the spec's formula,
`T0 - temp_slope * T0_OUT`. -/
def tempIntercept (regs : ℕ → ℕ) : Fp :=
  (calT0 regs).sub ((tempSlope regs).mul (calT0Out regs))

/-- The humidity slope of the spec's formula,
`(H1 - H0) / (H1_T0_OUT - H0_T0_OUT)`. -/
def humSlope (regs : ℕ → ℕ) : Fp :=
  ((calH1 regs).sub (calH0 regs)).div
    ((calH1T0Out regs).sub (calH0T0Out regs))

/-- The humidity intercept of the spec's formula,
`H0 - hum_slope * H0_T0_OUT`. -/
def humIntercept (regs : ℕ → ℕ) : Fp :=
  (calH0 regs).sub ((humSlope regs).mul (calH0T0Out regs))

end Hts221

/-- Register contents of the spec's concrete scenario: T0 = 0.0 °C,
T1 = 1.0 °C, T0_OUT = 0, T1_OUT = 1000, H0 = 20.0 %, H1 = 50.0 %,
H0_T0_OUT = 0, H1_T0_OUT = 2000, status = 0x03, temperature raw = 500,
humidity raw = 1000; unlisted registers read 0. -/
def scenarioRegs : ℕ → ℕ := fun r =>
  if r = 0x33 then 0x08
  else if r = 0x3e then 0xE8
  else if r = 0x3f then 0x03
  else if r = 0x30 then 0x28
  else if r = 0x31 then 0x64
  else if r = 0x3a then 0xD0
  else if r = 0x3b then 0x07
  else if r = 0x27 then 0x03
  else if r = 0x2a then 0xF4
  else if r = 0x2b then 0x01
  else if r = 0x28 then 0xE8
  else if r = 0x29 then 0x03
  else 0

/-- The calibration scalars the scenario produces: `temp_m = 1/1000`,
`temp_c = 0`, `hum_m = 3/200`, `hum_c = 20`. -/
def scenarioCalib : Hts221.Calib :=
  { temp_m := Fp.fin (1 / 1000), temp_c := Fp.fin 0,
    hum_m := Fp.fin (3 / 200), hum_c := Fp.fin 20 }

/-- The unsigned pressure sample `Lps25h::get_pressure` assembles from
the three output registers (little-endian, top byte of the 32-bit
buffer left zero). -/
def pressRaw (regs : ℕ → ℕ) : ℕ :=
  regs Lps25h.REG_PRESS_OUT_XL % 256 % 256 +
    256 * (regs Lps25h.REG_PRESS_OUT_L % 256 % 256) +
    65536 * (regs Lps25h.REG_PRESS_OUT_H % 256 % 256)

/-- Register contents for the pressure-sensor checks: status 0x03 (both
bits set), pressure-out bytes 0x00/0x80/0x3E (raw 4096000),
temperature-out bytes zero (raw 0). -/
def pressureScenarioRegs : ℕ → ℕ := fun r =>
  if r = 0x27 then 0x03
  else if r = 0x29 then 0x80
  else if r = 0x2a then 0x3E
  else 0

/-- Register contents exhibiting an out-of-range humidity percentage:
the spec scenario's calibration (slope 3/200, intercept 20) with a
humidity raw code of 32000 (bytes 0x00/0x7D), which converts to 500 %. -/
def unboundedHumidityRegs : ℕ → ℕ := fun r =>
  if r = 0x29 then 0x7D
  else if r = 0x28 then 0
  else scenarioRegs r

/-- Register contents on which the driver's T0 decode disagrees with a
signed 10-bit reading: `REG_T1_T0 = 0x02` makes the T0 code 512 (sign
bit of a 10-bit field set), all other registers zero, with
`T1_OUT = 1000` so the intercept `temp_c` equals T0. -/
def signed10Regs : ℕ → ℕ := fun r =>
  if r = 0x35 then 0x02
  else if r = 0x3e then 0xE8
  else if r = 0x3f then 0x03
  else 0

/-- The T0 decode as the claim words it: the 10-bit code interpreted as
a signed (two's-complement) 10-bit value, divided by 8.0.  Written from
the spec's words, for comparison with the driver's `calT0`. -/
def specSignedCalT0 (regs : ℕ → ℕ) : Fp :=
  (Fp.ofInt
    (let u : ℕ := regs Hts221.REG_T0_C_8 % 256 +
      256 * ((regs Hts221.REG_T1_T0 % 256) &&& 0x03)
     if u < 512 then (u : ℤ) else (u : ℤ) - 1024)).div (Fp.fin 8)

/-- C1. Humidity-driver calibration and conversion: for every
register state, `Hts221::new` returns exactly the four scalars
`temp_slope = (T1-T0)/(T1_OUT-T0_OUT)`,
`temp_intercept = T0 - temp_slope*T0_OUT` and the symmetric humidity
pair, computed from the decoded calibration readings (the constructed
`Calib` is immutable, so they persist for the driver's lifetime); every
temperature (resp. humidity) reading applies `raw*slope + intercept` to
the signed 16-bit little-endian raw code; and on the spec's concrete
scenario the calibration is `temp_m = 1/1000`, `temp_c = 0`,
`hum_m = 3/200`, `hum_c = 20`, the temperature reading is exactly
0.5 °C and the humidity reading exactly 35.0 %. -/
theorem hts221_calibration_and_conversion :
    (∀ regs : ℕ → ℕ,
      Hts221.new (devOfRegs regs) =
        (Except.ok
          { temp_m := Hts221.tempSlope regs,
            temp_c := Hts221.tempIntercept regs,
            hum_m := Hts221.humSlope regs,
            hum_c := Hts221.humIntercept regs },
         hts221NewOps)) ∧
    (∀ (regs : ℕ → ℕ) (c : Hts221.Calib),
      Hts221.get_temperature_celcius c (devOfRegs regs) =
        (Except.ok
          (((Fp.ofInt (i16le (regs Hts221.REG_TEMP_OUT_L % 256)
              (regs Hts221.REG_TEMP_OUT_H % 256))).mul c.temp_m).add
            c.temp_c),
         hts221GetTemperatureOps)) ∧
    (∀ (regs : ℕ → ℕ) (c : Hts221.Calib),
      Hts221.get_relative_humidity_percent c (devOfRegs regs) =
        (Except.ok
          (((Fp.ofInt (i16le (regs Hts221.REG_HUMIDITY_OUT_L % 256)
              (regs Hts221.REG_HUMIDITY_OUT_H % 256))).mul c.hum_m).add
            c.hum_c),
         hts221GetHumidityOps)) ∧
    Hts221.new (devOfRegs scenarioRegs) =
      (Except.ok scenarioCalib, hts221NewOps) ∧
    Hts221.get_temperature_celcius scenarioCalib (devOfRegs scenarioRegs) =
      (Except.ok (Fp.fin (1 / 2)), hts221GetTemperatureOps) ∧
    Hts221.get_relative_humidity_percent scenarioCalib
        (devOfRegs scenarioRegs) =
      (Except.ok (Fp.fin 35), hts221GetHumidityOps) := by
  refine ⟨fun regs => rfl, fun regs c => rfl, fun regs c => rfl, ?_, ?_, ?_⟩ <;>
    norm_num [Hts221.new, Hts221.get_temperature_celcius,
      Hts221.get_temperature, Hts221.get_relative_humidity_percent,
      Hts221.get_relative_humidity, M.bind, M.pure, rd, wr, devOfRegs,
      Except.map,
      scenarioRegs, scenarioCalib, i16le, Fp.ofInt, Fp.div, Fp.sub,
      Fp.add, Fp.neg, Fp.mul, hts221NewOps, hts221GetTemperatureOps,
      hts221GetHumidityOps, Hts221.REG_CTRL1, Hts221.REG_AV_CONF,
      Hts221.REG_T0_C_8, Hts221.REG_T1_C_8, Hts221.REG_T1_T0,
      Hts221.REG_T0_OUT, Hts221.REG_T1_OUT, Hts221.REG_H0_H_2,
      Hts221.REG_H1_H_2, Hts221.REG_H0_T0_OUT, Hts221.REG_H1_T0_OUT,
      Hts221.REG_TEMP_OUT_L, Hts221.REG_TEMP_OUT_H,
      Hts221.REG_HUMIDITY_OUT_L, Hts221.REG_HUMIDITY_OUT_H]

/-- C2. Status gating of the temperature read from the humidity
sensor: for every status byte with bit 0 clear,
`get_temperature_from_humidity` returns `NotReady` regardless of the
temperature-out registers (the quantification over `regs` leaves them
arbitrary), with no transaction beyond the status read; with bit 0 set
it returns the value the calibrated linear model assigns to the signed
16-bit code assembled from the two raw bytes. -/
theorem facade_humidity_temperature_status_gating :
    (∀ (regs : ℕ → ℕ) (c : Hts221.Calib),
      (regs Hts221.REG_STATUS % 256) &&& 1 = 0 →
      SenseHat.get_temperature_from_humidity c (devOfRegs regs) =
        (Except.error SenseHatError.NotReady,
         [BusOp.read Hts221.REG_STATUS])) ∧
    (∀ (regs : ℕ → ℕ) (c : Hts221.Calib),
      (regs Hts221.REG_STATUS % 256) &&& 1 ≠ 0 →
      SenseHat.get_temperature_from_humidity c (devOfRegs regs) =
        (Except.ok (Temperature.from_celsius
          (((Fp.ofInt (i16le (regs Hts221.REG_TEMP_OUT_L % 256)
              (regs Hts221.REG_TEMP_OUT_H % 256))).mul c.temp_m).add
            c.temp_c)),
         [BusOp.read Hts221.REG_STATUS,
          BusOp.read Hts221.REG_TEMP_OUT_L,
          BusOp.read Hts221.REG_TEMP_OUT_H])) := by
  constructor <;> intro regs c h <;>
    rw [Nat.and_one_is_mod] at h <;>
    [skip; replace h : regs Hts221.REG_STATUS % 256 % 2 = 1 := by omega] <;>
    simp [SenseHat.get_temperature_from_humidity, liftDriver,
      Hts221.status, Hts221.get_temperature_celcius,
      Hts221.get_temperature, Temperature.from_celsius, M.bind, M.pure,
      M.throw, rd, devOfRegs, Except.map, h]

/-- Witness for C2: both branches at concrete register contents — the
all-zero registers give `NotReady`, the spec scenario's registers give
the converted reading. -/
theorem facade_humidity_temperature_status_gating_witness :
    SenseHat.get_temperature_from_humidity scenarioCalib
        (devOfRegs fun _ => 0) =
      (Except.error SenseHatError.NotReady,
       [BusOp.read Hts221.REG_STATUS]) ∧
    SenseHat.get_temperature_from_humidity scenarioCalib
        (devOfRegs scenarioRegs) =
      (Except.ok (Temperature.from_celsius
        (((Fp.ofInt (i16le (scenarioRegs Hts221.REG_TEMP_OUT_L % 256)
            (scenarioRegs Hts221.REG_TEMP_OUT_H % 256))).mul
              scenarioCalib.temp_m).add scenarioCalib.temp_c)),
       [BusOp.read Hts221.REG_STATUS,
        BusOp.read Hts221.REG_TEMP_OUT_L,
        BusOp.read Hts221.REG_TEMP_OUT_H]) :=
  ⟨facade_humidity_temperature_status_gating.1 (fun _ => 0) scenarioCalib
      (by decide),
   facade_humidity_temperature_status_gating.2 scenarioRegs scenarioCalib
      (by decide)⟩



/-- C5. Pressure reading: with status bit 1 clear `get_pressure`
returns `NotReady` after the status read alone; with bit 1 set it
returns the three output bytes assembled little-endian, divided by
4096.0 hPa; the assembled value is always below `2^24`; and raw
4096000 yields exactly 1000.0 hPa. -/
theorem facade_pressure_reading :
    (∀ regs : ℕ → ℕ,
      (regs Lps25h.REG_STATUS_REG % 256) &&& 2 = 0 →
      SenseHat.get_pressure (devOfRegs regs) =
        (Except.error SenseHatError.NotReady,
         [BusOp.read Lps25h.REG_STATUS_REG])) ∧
    (∀ regs : ℕ → ℕ,
      (regs Lps25h.REG_STATUS_REG % 256) &&& 2 ≠ 0 →
      SenseHat.get_pressure (devOfRegs regs) =
        (Except.ok (Pressure.from_hectopascals
          (Fp.fin ((pressRaw regs : ℚ) / 4096))),
         [BusOp.read Lps25h.REG_STATUS_REG,
          BusOp.read Lps25h.REG_PRESS_OUT_XL,
          BusOp.read Lps25h.REG_PRESS_OUT_L,
          BusOp.read Lps25h.REG_PRESS_OUT_H])) ∧
    (∀ regs : ℕ → ℕ, pressRaw regs < 2 ^ 24) ∧
    SenseHat.get_pressure (devOfRegs pressureScenarioRegs) =
      (Except.ok (Pressure.from_hectopascals (Fp.fin 1000)),
       [BusOp.read Lps25h.REG_STATUS_REG,
        BusOp.read Lps25h.REG_PRESS_OUT_XL,
        BusOp.read Lps25h.REG_PRESS_OUT_L,
        BusOp.read Lps25h.REG_PRESS_OUT_H]) := by
  refine ⟨fun regs h => ?_, fun regs h => ?_, fun regs => ?_, ?_⟩
  · simp [SenseHat.get_pressure, liftDriver, Lps25h.status, M.bind,
      M.pure, M.throw, rd, devOfRegs, Except.map, h]
  · norm_num [SenseHat.get_pressure, liftDriver, Lps25h.status,
      Lps25h.get_pressure_hpa, Lps25h.get_pressure,
      Pressure.from_hectopascals, M.bind, M.pure, M.throw, rd,
      devOfRegs, Except.map, Fp.div, pressRaw, h]
  · simp only [pressRaw]
    omega
  · norm_num [SenseHat.get_pressure, liftDriver, Lps25h.status,
      Lps25h.get_pressure_hpa, Lps25h.get_pressure,
      Pressure.from_hectopascals, M.bind, M.pure, M.throw, rd,
      devOfRegs, Except.map, Fp.div, pressureScenarioRegs,
      Lps25h.REG_STATUS_REG, Lps25h.REG_PRESS_OUT_XL,
      Lps25h.REG_PRESS_OUT_L, Lps25h.REG_PRESS_OUT_H]
    simp

/-- Witness for C5: both gated branches at concrete register
contents. -/
theorem facade_pressure_reading_witness :
    SenseHat.get_pressure (devOfRegs fun _ => 0) =
      (Except.error SenseHatError.NotReady,
       [BusOp.read Lps25h.REG_STATUS_REG]) ∧
    SenseHat.get_pressure (devOfRegs pressureScenarioRegs) =
      (Except.ok (Pressure.from_hectopascals
        (Fp.fin ((pressRaw pressureScenarioRegs : ℚ) / 4096))),
       [BusOp.read Lps25h.REG_STATUS_REG,
        BusOp.read Lps25h.REG_PRESS_OUT_XL,
        BusOp.read Lps25h.REG_PRESS_OUT_L,
        BusOp.read Lps25h.REG_PRESS_OUT_H]) ∧
    pressRaw pressureScenarioRegs < 2 ^ 24 :=
  ⟨facade_pressure_reading.1 (fun _ => 0) (by decide),
   facade_pressure_reading.2.1 pressureScenarioRegs (by decide),
   facade_pressure_reading.2.2.1 pressureScenarioRegs⟩

/-- C6. Pressure-sensor temperature reading: with status bit 0
clear `get_temperature_from_pressure` returns `NotReady` after the
status read alone; with bit 0 set it returns the signed 16-bit
little-endian raw code through the fixed formula `raw/480.0 + 42.5`;
raw 0 yields exactly 42.5 °C. -/
theorem facade_pressure_temperature_reading :
    (∀ regs : ℕ → ℕ,
      (regs Lps25h.REG_STATUS_REG % 256) &&& 1 = 0 →
      SenseHat.get_temperature_from_pressure (devOfRegs regs) =
        (Except.error SenseHatError.NotReady,
         [BusOp.read Lps25h.REG_STATUS_REG])) ∧
    (∀ regs : ℕ → ℕ,
      (regs Lps25h.REG_STATUS_REG % 256) &&& 1 ≠ 0 →
      SenseHat.get_temperature_from_pressure (devOfRegs regs) =
        (Except.ok (Temperature.from_celsius
          (Fp.fin ((i16le (regs Lps25h.REG_TEMP_OUT_L % 256)
            (regs Lps25h.REG_TEMP_OUT_H % 256) : ℚ) / 480 + 85 / 2))),
         [BusOp.read Lps25h.REG_STATUS_REG,
          BusOp.read Lps25h.REG_TEMP_OUT_L,
          BusOp.read Lps25h.REG_TEMP_OUT_H])) ∧
    SenseHat.get_temperature_from_pressure (devOfRegs pressureScenarioRegs) =
      (Except.ok (Temperature.from_celsius (Fp.fin (85 / 2))),
       [BusOp.read Lps25h.REG_STATUS_REG,
        BusOp.read Lps25h.REG_TEMP_OUT_L,
        BusOp.read Lps25h.REG_TEMP_OUT_H]) := by
  refine ⟨fun regs h => ?_, fun regs h => ?_, ?_⟩
  · rw [Nat.and_one_is_mod] at h
    simp [SenseHat.get_temperature_from_pressure, liftDriver,
      Lps25h.status, M.bind, M.pure, M.throw, rd, devOfRegs,
      Except.map, h]
  · rw [Nat.and_one_is_mod] at h
    replace h : regs Lps25h.REG_STATUS_REG % 256 % 2 = 1 := by omega
    norm_num [SenseHat.get_temperature_from_pressure, liftDriver,
      Lps25h.status, Lps25h.get_temp_celcius, Lps25h.get_temp,
      Temperature.from_celsius, M.bind, M.pure, M.throw, rd, devOfRegs,
      Except.map, Fp.div, Fp.add, Fp.ofInt, h]
  · norm_num [SenseHat.get_temperature_from_pressure, liftDriver,
      Lps25h.status, Lps25h.get_temp_celcius, Lps25h.get_temp,
      Temperature.from_celsius, M.bind, M.pure, M.throw, rd, devOfRegs,
      Except.map, Fp.div, Fp.add, Fp.ofInt, i16le,
      pressureScenarioRegs, Lps25h.REG_STATUS_REG,
      Lps25h.REG_TEMP_OUT_L, Lps25h.REG_TEMP_OUT_H]

/-- Witness for C6: both gated branches at concrete register
contents. -/
theorem facade_pressure_temperature_reading_witness :
    SenseHat.get_temperature_from_pressure (devOfRegs fun _ => 0) =
      (Except.error SenseHatError.NotReady,
       [BusOp.read Lps25h.REG_STATUS_REG]) ∧
    SenseHat.get_temperature_from_pressure
        (devOfRegs pressureScenarioRegs) =
      (Except.ok (Temperature.from_celsius
        (Fp.fin ((i16le (pressureScenarioRegs Lps25h.REG_TEMP_OUT_L % 256)
          (pressureScenarioRegs Lps25h.REG_TEMP_OUT_H % 256) : ℚ) / 480 +
            85 / 2))),
       [BusOp.read Lps25h.REG_STATUS_REG,
        BusOp.read Lps25h.REG_TEMP_OUT_L,
        BusOp.read Lps25h.REG_TEMP_OUT_H]) :=
  ⟨facade_pressure_temperature_reading.1 (fun _ => 0) (by decide),
   facade_pressure_temperature_reading.2.1 pressureScenarioRegs
     (by decide)⟩


/-- C7. Humidity reading gating and unboundedness: with status
bit 1 clear `get_humidity` returns `NotReady` after the status read
alone; with bit 1 set it returns the raw signed 16-bit code through the
humidity linear model with no clamping; and for the scenario
calibration with raw code 32000 the returned percentage is 500, which
lies outside [0, 100]. -/
theorem facade_humidity_reading :
    (∀ (regs : ℕ → ℕ) (c : Hts221.Calib),
      (regs Hts221.REG_STATUS % 256) &&& 2 = 0 →
      SenseHat.get_humidity c (devOfRegs regs) =
        (Except.error SenseHatError.NotReady,
         [BusOp.read Hts221.REG_STATUS])) ∧
    (∀ (regs : ℕ → ℕ) (c : Hts221.Calib),
      (regs Hts221.REG_STATUS % 256) &&& 2 ≠ 0 →
      SenseHat.get_humidity c (devOfRegs regs) =
        (Except.ok (RelativeHumidity.from_percent
          (((Fp.ofInt (i16le (regs Hts221.REG_HUMIDITY_OUT_L % 256)
              (regs Hts221.REG_HUMIDITY_OUT_H % 256))).mul c.hum_m).add
            c.hum_c)),
         [BusOp.read Hts221.REG_STATUS,
          BusOp.read Hts221.REG_HUMIDITY_OUT_L,
          BusOp.read Hts221.REG_HUMIDITY_OUT_H])) ∧
    SenseHat.get_humidity scenarioCalib (devOfRegs unboundedHumidityRegs) =
      (Except.ok (RelativeHumidity.from_percent (Fp.fin 500)),
       [BusOp.read Hts221.REG_STATUS,
        BusOp.read Hts221.REG_HUMIDITY_OUT_L,
        BusOp.read Hts221.REG_HUMIDITY_OUT_H]) ∧
    (100 : ℚ) < 500 := by
  refine ⟨fun regs c h => ?_, fun regs c h => ?_, ?_, by norm_num⟩
  · simp [SenseHat.get_humidity, liftDriver, Hts221.status, M.bind,
      M.pure, M.throw, rd, devOfRegs, Except.map, h]
  · simp [SenseHat.get_humidity, liftDriver, Hts221.status,
      Hts221.get_relative_humidity_percent,
      Hts221.get_relative_humidity, RelativeHumidity.from_percent,
      M.bind, M.pure, M.throw, rd, devOfRegs, Except.map, h]
  · norm_num [SenseHat.get_humidity, liftDriver, Hts221.status,
      Hts221.get_relative_humidity_percent,
      Hts221.get_relative_humidity, RelativeHumidity.from_percent,
      M.bind, M.pure, M.throw, rd, devOfRegs, Except.map, Fp.ofInt,
      Fp.mul, Fp.add, i16le, unboundedHumidityRegs, scenarioRegs,
      scenarioCalib, Hts221.REG_STATUS, Hts221.REG_HUMIDITY_OUT_L,
      Hts221.REG_HUMIDITY_OUT_H]
    simp

/-- Witness for C7: both gated branches at concrete register
contents. -/
theorem facade_humidity_reading_witness :
    SenseHat.get_humidity scenarioCalib (devOfRegs fun _ => 0) =
      (Except.error SenseHatError.NotReady,
       [BusOp.read Hts221.REG_STATUS]) ∧
    SenseHat.get_humidity scenarioCalib (devOfRegs scenarioRegs) =
      (Except.ok (RelativeHumidity.from_percent
        (((Fp.ofInt (i16le (scenarioRegs Hts221.REG_HUMIDITY_OUT_L % 256)
            (scenarioRegs Hts221.REG_HUMIDITY_OUT_H % 256))).mul
              scenarioCalib.hum_m).add scenarioCalib.hum_c)),
       [BusOp.read Hts221.REG_STATUS,
        BusOp.read Hts221.REG_HUMIDITY_OUT_L,
        BusOp.read Hts221.REG_HUMIDITY_OUT_H]) :=
  ⟨facade_humidity_reading.1 (fun _ => 0) scenarioCalib (by decide),
   facade_humidity_reading.2.1 scenarioRegs scenarioCalib (by decide)⟩

/-- C3. Two-byte sample assembly: each two-byte field of either
sensor is read low byte then high byte and assembled by `i16le`, the
signed 16-bit little-endian interpretation of `low + 256*high`
(characterized as the unique value congruent to `low + 256*high` in
`[-32768, 32768)` via the shift-mod-shift identity); in particular
low = 0x00, high = 0x01 gives 256 and low = 0xFF, high = 0xFF gives
-1. -/
theorem two_byte_sample_assembly :
    (∀ regs : ℕ → ℕ,
      Hts221.get_temperature (devOfRegs regs) =
        (Except.ok (i16le (regs Hts221.REG_TEMP_OUT_L % 256)
          (regs Hts221.REG_TEMP_OUT_H % 256)),
         hts221GetTemperatureOps)) ∧
    (∀ regs : ℕ → ℕ,
      Hts221.get_relative_humidity (devOfRegs regs) =
        (Except.ok (i16le (regs Hts221.REG_HUMIDITY_OUT_L % 256)
          (regs Hts221.REG_HUMIDITY_OUT_H % 256)),
         hts221GetHumidityOps)) ∧
    (∀ regs : ℕ → ℕ,
      Lps25h.get_temp (devOfRegs regs) =
        (Except.ok (i16le (regs Lps25h.REG_TEMP_OUT_L % 256)
          (regs Lps25h.REG_TEMP_OUT_H % 256)),
         [BusOp.read Lps25h.REG_TEMP_OUT_L,
          BusOp.read Lps25h.REG_TEMP_OUT_H])) ∧
    (∀ lo hi : ℕ,
      i16le lo hi =
        (((lo % 256 + 256 * (hi % 256) : ℕ) : ℤ) + 32768) % 65536 -
          32768) ∧
    i16le 0x00 0x01 = 256 ∧ i16le 0xFF 0xFF = -1 := by
  refine ⟨fun regs => rfl, fun regs => rfl, fun regs => rfl,
    fun lo hi => ?_, by decide, by decide⟩
  simp only [i16le]
  split <;> omega

/-- A two-byte assembly whose high byte is below 128 is non-negative:
the unsigned value itself. -/
theorem i16le_of_small (lo hi : ℕ) (hlo : lo < 256) (hhi : hi < 128) :
    i16le lo hi = ((lo + 256 * hi : ℕ) : ℤ) := by
  simp only [i16le]
  rw [Nat.mod_eq_of_lt hlo, Nat.mod_eq_of_lt (show hi < 256 by omega),
    if_pos (by omega)]

/-- Division of finite values by a nonzero finite value is exact
rational division. -/
theorem Fp.div_fin_of_ne (a b : ℚ) (hb : b ≠ 0) :
    (Fp.fin a).div (Fp.fin b) = Fp.fin (a / b) := by
  simp [Fp.div, hb]

/-- The two low bits taken from `REG_T1_T0` are at most 3. -/
theorem t1t0_low_bits_le (regs : ℕ → ℕ) :
    (regs Hts221.REG_T1_T0 % 256) &&& 0x03 ≤ 3 :=
  Nat.and_le_right

/-- Bits 2-3 taken from `REG_T1_T0`, shifted down, are at most 3. -/
theorem t1t0_high_bits_le (regs : ℕ → ℕ) :
    ((regs Hts221.REG_T1_T0 % 256) &&& 0x0C) >>> 2 ≤ 3 := by
  have h : (regs Hts221.REG_T1_T0 % 256) &&& 0x0C ≤ 12 :=
    Nat.and_le_right
  rw [Nat.shiftRight_eq_div_pow]
  omega

/-- The driver's T0 decode in closed form: the zero-extended 10-bit
code over 8, always non-negative. -/
theorem calT0_eq (regs : ℕ → ℕ) :
    Hts221.calT0 regs =
      Fp.fin (((regs Hts221.REG_T0_C_8 % 256 +
        256 * ((regs Hts221.REG_T1_T0 % 256) &&& 0x03) : ℕ) : ℚ) / 8) := by
  rw [Hts221.calT0,
    i16le_of_small _ _ (Nat.mod_lt _ (by norm_num))
      (by have := t1t0_low_bits_le regs; omega)]
  simp only [Fp.ofInt]
  rw [Fp.div_fin_of_ne _ _ (by norm_num)]
  congr 1

/-- The driver's T1 decode in closed form: the zero-extended 10-bit
code over 8, always non-negative. -/
theorem calT1_eq (regs : ℕ → ℕ) :
    Hts221.calT1 regs =
      Fp.fin (((regs Hts221.REG_T1_C_8 % 256 +
        256 * (((regs Hts221.REG_T1_T0 % 256) &&& 0x0C) >>> 2) : ℕ) :
          ℚ) / 8) := by
  rw [Hts221.calT1,
    i16le_of_small _ _ (Nat.mod_lt _ (by norm_num))
      (by have := t1t0_high_bits_le regs; omega)]
  simp only [Fp.ofInt]
  rw [Fp.div_fin_of_ne _ _ (by norm_num)]
  congr 1



/-- C4 counterexample. At `signed10Regs` the 10-bit T0 code is 512:
a signed 10-bit interpretation would give -512/8 = -64 °C, but the
driver zero-extends the code into the signed 16-bit container, decodes
T0 = +64 °C and retains it as the intercept `temp_c` (T0_OUT being 0),
so the claim's signed reading contradicts the code. -/
theorem t0_signed_decode_counterexample :
    Hts221.calT0 signed10Regs = Fp.fin 64 ∧
    specSignedCalT0 signed10Regs = Fp.fin (-64) ∧
    (Hts221.new (devOfRegs signed10Regs)).1 =
      Except.ok
        { temp_m := Hts221.tempSlope signed10Regs,
          temp_c := Hts221.tempIntercept signed10Regs,
          hum_m := Hts221.humSlope signed10Regs,
          hum_c := Hts221.humIntercept signed10Regs } ∧
    Hts221.tempIntercept signed10Regs = Fp.fin 64 ∧
    Fp.fin (64 : ℚ) ≠ Fp.fin (-64) := by
  refine ⟨?_, ?_, rfl, ?_, ?_⟩
  · rw [calT0_eq]
    norm_num [signed10Regs, Hts221.REG_T0_C_8, Hts221.REG_T1_T0,
      (by decide : (2 &&& 3 : ℕ) = 2)]
  · norm_num [specSignedCalT0, signed10Regs, Fp.ofInt, Fp.div,
      Hts221.REG_T0_C_8, Hts221.REG_T1_T0,
      (by decide : (2 &&& 3 : ℕ) = 2)]
  · rw [Hts221.tempIntercept, Hts221.tempSlope, calT0_eq, calT1_eq]
    norm_num [Hts221.calT0Out, Hts221.calT1Out, signed10Regs, i16le,
      Fp.ofInt, Fp.div, Fp.sub, Fp.add, Fp.neg, Fp.mul,
      Hts221.REG_T0_C_8, Hts221.REG_T1_C_8, Hts221.REG_T1_T0,
      Hts221.REG_T0_OUT, Hts221.REG_T1_OUT,
      (by decide : (2 &&& 3 : ℕ) = 2),
      (by decide : ((2 &&& 12) >>> 2 : ℕ) = 0)]
  · intro h
    rw [Fp.fin.injEq] at h
    norm_num at h

/-- C4 amended. T0/T1 calibration decoding: the 10-bit code
(8-bit register plus 2 bits of `T1_T0`) is zero-extended into the
signed 16-bit container — i.e. interpreted as unsigned, always
non-negative — and divided by 8.0; the decoded temperatures are
`code/8` for codes in `[0, 1024)`. -/
theorem t0_t1_unsigned_decode :
    ∀ regs : ℕ → ℕ,
      Hts221.calT0 regs =
        Fp.fin (((regs Hts221.REG_T0_C_8 % 256 +
          256 * ((regs Hts221.REG_T1_T0 % 256) &&& 0x03) : ℕ) : ℚ) / 8) ∧
      Hts221.calT1 regs =
        Fp.fin (((regs Hts221.REG_T1_C_8 % 256 +
          256 * (((regs Hts221.REG_T1_T0 % 256) &&& 0x0C) >>> 2) : ℕ) :
            ℚ) / 8) ∧
      regs Hts221.REG_T0_C_8 % 256 +
          256 * ((regs Hts221.REG_T1_T0 % 256) &&& 0x03) < 1024 ∧
      regs Hts221.REG_T1_C_8 % 256 +
          256 * (((regs Hts221.REG_T1_T0 % 256) &&& 0x0C) >>> 2) <
        1024 := by
  intro regs
  have h0 := t1t0_low_bits_le regs
  have h2 := t1t0_high_bits_le regs
  have hm0 : regs Hts221.REG_T0_C_8 % 256 < 256 :=
    Nat.mod_lt _ (by norm_num)
  have hm1 : regs Hts221.REG_T1_C_8 % 256 < 256 :=
    Nat.mod_lt _ (by norm_num)
  exact ⟨calT0_eq regs, calT1_eq regs, by omega, by omega⟩

/-- The embedded `Hts221::new` attempts exactly the fixed transaction sequence
`hts221NewOps` cut at the first failure, and fails exactly when the cut
sequence fails, with the same error. -/
theorem hts221_new_runOps {E : Type} (dev : Dev E) :
    (Hts221.new dev).2 = (runOps dev hts221NewOps).2 ∧
    ∀ e : E, ((Hts221.new dev).1 = Except.error e ↔
      (runOps dev hts221NewOps).1 = Except.error e) := by
  rcases h0 : dev.writeReg Hts221.REG_CTRL1 0x87 with e | u
  · simp [*, Hts221.new, runOps, hts221NewOps, execOp, M.bind, M.pure,
      wr, rd, Except.map]
  rcases h1 : dev.writeReg Hts221.REG_AV_CONF 0x1b with e | u
  · simp [*, Hts221.new, runOps, hts221NewOps, execOp, M.bind, M.pure,
      wr, rd, Except.map]
  rcases h2 : dev.readReg Hts221.REG_T0_C_8 with e | b0
  · simp [*, Hts221.new, runOps, hts221NewOps, execOp, M.bind, M.pure,
      wr, rd, Except.map]
  rcases h3 : dev.readReg Hts221.REG_T1_T0 with e | b1
  · simp [*, Hts221.new, runOps, hts221NewOps, execOp, M.bind, M.pure,
      wr, rd, Except.map]
  rcases h4 : dev.readReg Hts221.REG_T1_C_8 with e | b2
  · simp [*, Hts221.new, runOps, hts221NewOps, execOp, M.bind, M.pure,
      wr, rd, Except.map]
  rcases h5 : dev.readReg Hts221.REG_T0_OUT with e | b4
  · simp [*, Hts221.new, runOps, hts221NewOps, execOp, M.bind, M.pure,
      wr, rd, Except.map]
  rcases h6 : dev.readReg (Hts221.REG_T0_OUT + 1) with e | b5
  · simp [*, Hts221.new, runOps, hts221NewOps, execOp, M.bind, M.pure,
      wr, rd, Except.map]
  rcases h7 : dev.readReg Hts221.REG_T1_OUT with e | b6
  · simp [*, Hts221.new, runOps, hts221NewOps, execOp, M.bind, M.pure,
      wr, rd, Except.map]
  rcases h8 : dev.readReg (Hts221.REG_T1_OUT + 1) with e | b7
  · simp [*, Hts221.new, runOps, hts221NewOps, execOp, M.bind, M.pure,
      wr, rd, Except.map]
  rcases h9 : dev.readReg Hts221.REG_H0_H_2 with e | b8
  · simp [*, Hts221.new, runOps, hts221NewOps, execOp, M.bind, M.pure,
      wr, rd, Except.map]
  rcases h10 : dev.readReg Hts221.REG_H1_H_2 with e | b9
  · simp [*, Hts221.new, runOps, hts221NewOps, execOp, M.bind, M.pure,
      wr, rd, Except.map]
  rcases h11 : dev.readReg Hts221.REG_H0_T0_OUT with e | b10
  · simp [*, Hts221.new, runOps, hts221NewOps, execOp, M.bind, M.pure,
      wr, rd, Except.map]
  rcases h12 : dev.readReg (Hts221.REG_H0_T0_OUT + 1) with e | b11
  · simp [*, Hts221.new, runOps, hts221NewOps, execOp, M.bind, M.pure,
      wr, rd, Except.map]
  rcases h13 : dev.readReg Hts221.REG_H1_T0_OUT with e | b12
  · simp [*, Hts221.new, runOps, hts221NewOps, execOp, M.bind, M.pure,
      wr, rd, Except.map]
  rcases h14 : dev.readReg (Hts221.REG_H1_T0_OUT + 1) with e | b13
  · simp [*, Hts221.new, runOps, hts221NewOps, execOp, M.bind, M.pure,
      wr, rd, Except.map]
  simp [*, Hts221.new, runOps, hts221NewOps, execOp, M.bind, M.pure,
    wr, rd, Except.map]

/-- The embedded `Lps25h::new` attempts exactly the four init writes cut at the
first failure, failing with the first error. -/
theorem lps25h_new_runOps {E : Type} (dev : Dev E) :
    (Lps25h.new dev).2 = (runOps dev lps25hNewOps).2 ∧
    ∀ e : E, ((Lps25h.new dev).1 = Except.error e ↔
      (runOps dev lps25hNewOps).1 = Except.error e) := by
  rcases h0 : dev.writeReg Lps25h.REG_CTRL_REG_1 0xc4 with e | u
  · simp [*, Lps25h.new, runOps, lps25hNewOps, execOp, M.bind, M.pure,
      wr, rd, Except.map]
  rcases h1 : dev.writeReg Lps25h.REG_RES_CONF 0x05 with e | u
  · simp [*, Lps25h.new, runOps, lps25hNewOps, execOp, M.bind, M.pure,
      wr, rd, Except.map]
  rcases h2 : dev.writeReg Lps25h.REG_FIFO_CTRL 0xc0 with e | u
  · simp [*, Lps25h.new, runOps, lps25hNewOps, execOp, M.bind, M.pure,
      wr, rd, Except.map]
  rcases h3 : dev.writeReg Lps25h.REG_CTRL_REG_2 0x40 with e | u <;>
    simp [*, Lps25h.new, runOps, lps25hNewOps, execOp, M.bind, M.pure,
      wr, rd, Except.map]

/-- The embedded `Hts221::get_temperature` attempts exactly its two reads cut at the
first failure, failing with the first error. -/
theorem hts221_get_temperature_runOps {E : Type} (dev : Dev E) :
    (Hts221.get_temperature dev).2 =
      (runOps dev hts221GetTemperatureOps).2 ∧
    ∀ e : E, ((Hts221.get_temperature dev).1 = Except.error e ↔
      (runOps dev hts221GetTemperatureOps).1 = Except.error e) := by
  rcases h0 : dev.readReg Hts221.REG_TEMP_OUT_L with e | lo
  · simp [*, Hts221.get_temperature, runOps, hts221GetTemperatureOps,
      execOp, M.bind, M.pure, rd, Except.map]
  rcases h1 : dev.readReg Hts221.REG_TEMP_OUT_H with e | hi <;>
    simp [*, Hts221.get_temperature, runOps, hts221GetTemperatureOps,
      execOp, M.bind, M.pure, rd, Except.map]

/-- The embedded `Hts221::get_relative_humidity` attempts exactly its two reads cut
at the first failure, failing with the first error. -/
theorem hts221_get_humidity_runOps {E : Type} (dev : Dev E) :
    (Hts221.get_relative_humidity dev).2 =
      (runOps dev hts221GetHumidityOps).2 ∧
    ∀ e : E, ((Hts221.get_relative_humidity dev).1 = Except.error e ↔
      (runOps dev hts221GetHumidityOps).1 = Except.error e) := by
  rcases h0 : dev.readReg Hts221.REG_HUMIDITY_OUT_L with e | lo
  · simp [*, Hts221.get_relative_humidity, runOps, hts221GetHumidityOps,
      execOp, M.bind, M.pure, rd, Except.map]
  rcases h1 : dev.readReg Hts221.REG_HUMIDITY_OUT_H with e | hi <;>
    simp [*, Hts221.get_relative_humidity, runOps, hts221GetHumidityOps,
      execOp, M.bind, M.pure, rd, Except.map]

/-- The embedded `Lps25h::get_temp` attempts exactly its two reads cut at the first
failure, failing with the first error. -/
theorem lps25h_get_temp_runOps {E : Type} (dev : Dev E) :
    (Lps25h.get_temp dev).2 = (runOps dev lps25hGetTempOps).2 ∧
    ∀ e : E, ((Lps25h.get_temp dev).1 = Except.error e ↔
      (runOps dev lps25hGetTempOps).1 = Except.error e) := by
  rcases h0 : dev.readReg Lps25h.REG_TEMP_OUT_L with e | lo
  · simp [*, Lps25h.get_temp, runOps, lps25hGetTempOps, execOp, M.bind,
      M.pure, rd, Except.map]
  rcases h1 : dev.readReg Lps25h.REG_TEMP_OUT_H with e | hi <;>
    simp [*, Lps25h.get_temp, runOps, lps25hGetTempOps, execOp, M.bind,
      M.pure, rd, Except.map]

/-- The embedded `Lps25h::get_pressure` attempts exactly its three reads cut at the
first failure, failing with the first error. -/
theorem lps25h_get_pressure_runOps {E : Type} (dev : Dev E) :
    (Lps25h.get_pressure dev).2 = (runOps dev lps25hGetPressureOps).2 ∧
    ∀ e : E, ((Lps25h.get_pressure dev).1 = Except.error e ↔
      (runOps dev lps25hGetPressureOps).1 = Except.error e) := by
  rcases h0 : dev.readReg Lps25h.REG_PRESS_OUT_XL with e | b0
  · simp [*, Lps25h.get_pressure, runOps, lps25hGetPressureOps, execOp,
      M.bind, M.pure, rd, Except.map]
  rcases h1 : dev.readReg Lps25h.REG_PRESS_OUT_L with e | b1
  · simp [*, Lps25h.get_pressure, runOps, lps25hGetPressureOps, execOp,
      M.bind, M.pure, rd, Except.map]
  rcases h2 : dev.readReg Lps25h.REG_PRESS_OUT_H with e | b2 <;>
    simp [*, Lps25h.get_pressure, runOps, lps25hGetPressureOps, execOp,
      M.bind, M.pure, rd, Except.map]

/-- The embedded `SenseHat::new` is all-or-nothing: a failure of any component
(humidity chip, pressure chip, IMU, screen — in construction order)
makes construction return that failure, transport errors wrapped as
`I2CError` by the `?` conversion; it succeeds exactly when every
component does, yielding the humidity calibration state. -/
theorem sensehat_new_all_or_nothing {E : Type} (humDev presDev : Dev E)
    (accel scrn : Except (SenseHatError E) Unit) :
    (∀ e : E, (Hts221.new humDev).1 = Except.error e →
      (SenseHat.new humDev presDev accel scrn).1 =
        Except.error (SenseHatError.I2CError e)) ∧
    (∀ (c : Hts221.Calib) (e : E),
      (Hts221.new humDev).1 = Except.ok c →
      (Lps25h.new presDev).1 = Except.error e →
      (SenseHat.new humDev presDev accel scrn).1 =
        Except.error (SenseHatError.I2CError e)) ∧
    (∀ (c : Hts221.Calib) (e : SenseHatError E),
      (Hts221.new humDev).1 = Except.ok c →
      (Lps25h.new presDev).1 = Except.ok () →
      accel = Except.error e →
      (SenseHat.new humDev presDev accel scrn).1 = Except.error e) ∧
    (∀ (c : Hts221.Calib) (e : SenseHatError E),
      (Hts221.new humDev).1 = Except.ok c →
      (Lps25h.new presDev).1 = Except.ok () →
      accel = Except.ok () → scrn = Except.error e →
      (SenseHat.new humDev presDev accel scrn).1 = Except.error e) ∧
    (∀ c : Hts221.Calib,
      (Hts221.new humDev).1 = Except.ok c →
      (Lps25h.new presDev).1 = Except.ok () →
      accel = Except.ok () → scrn = Except.ok () →
      (SenseHat.new humDev presDev accel scrn).1 = Except.ok c) := by
  refine ⟨fun e h => ?_, fun c e h1 h2 => ?_, fun c e h1 h2 h3 => ?_,
    fun c e h1 h2 h3 h4 => ?_, fun c h1 h2 h3 h4 => ?_⟩ <;>
    simp [*, SenseHat.new, liftDriver, M.bind, M.pure]

/-- C8. All-or-nothing construction and first-error
short-circuit: every composite bus interaction (the HTS221 and LPS25H
init/calibration sequences and every multi-byte sample assembly)
attempts exactly its fixed transaction sequence cut at the first
failing operation — nothing is attempted after the failure — and fails
with exactly that operation's error; and `SenseHat::new` fails with the
first component's error (transport errors wrapped by the facade's
`From` conversion), producing a handle only when every component
succeeds. -/
theorem construction_error_short_circuit :
    (∀ (E : Type) (dev : Dev E),
      (Hts221.new dev).2 = (runOps dev hts221NewOps).2 ∧
      ∀ e : E, ((Hts221.new dev).1 = Except.error e ↔
        (runOps dev hts221NewOps).1 = Except.error e)) ∧
    (∀ (E : Type) (dev : Dev E),
      (Lps25h.new dev).2 = (runOps dev lps25hNewOps).2 ∧
      ∀ e : E, ((Lps25h.new dev).1 = Except.error e ↔
        (runOps dev lps25hNewOps).1 = Except.error e)) ∧
    (∀ (E : Type) (dev : Dev E),
      (Hts221.get_temperature dev).2 =
        (runOps dev hts221GetTemperatureOps).2 ∧
      ∀ e : E, ((Hts221.get_temperature dev).1 = Except.error e ↔
        (runOps dev hts221GetTemperatureOps).1 = Except.error e)) ∧
    (∀ (E : Type) (dev : Dev E),
      (Hts221.get_relative_humidity dev).2 =
        (runOps dev hts221GetHumidityOps).2 ∧
      ∀ e : E, ((Hts221.get_relative_humidity dev).1 = Except.error e ↔
        (runOps dev hts221GetHumidityOps).1 = Except.error e)) ∧
    (∀ (E : Type) (dev : Dev E),
      (Lps25h.get_temp dev).2 = (runOps dev lps25hGetTempOps).2 ∧
      ∀ e : E, ((Lps25h.get_temp dev).1 = Except.error e ↔
        (runOps dev lps25hGetTempOps).1 = Except.error e)) ∧
    (∀ (E : Type) (dev : Dev E),
      (Lps25h.get_pressure dev).2 =
        (runOps dev lps25hGetPressureOps).2 ∧
      ∀ e : E, ((Lps25h.get_pressure dev).1 = Except.error e ↔
        (runOps dev lps25hGetPressureOps).1 = Except.error e)) ∧
    (∀ (E : Type) (humDev presDev : Dev E)
      (accel scrn : Except (SenseHatError E) Unit),
      (∀ e : E, (Hts221.new humDev).1 = Except.error e →
        (SenseHat.new humDev presDev accel scrn).1 =
          Except.error (SenseHatError.I2CError e)) ∧
      (∀ (c : Hts221.Calib) (e : E),
        (Hts221.new humDev).1 = Except.ok c →
        (Lps25h.new presDev).1 = Except.error e →
        (SenseHat.new humDev presDev accel scrn).1 =
          Except.error (SenseHatError.I2CError e)) ∧
      (∀ (c : Hts221.Calib) (e : SenseHatError E),
        (Hts221.new humDev).1 = Except.ok c →
        (Lps25h.new presDev).1 = Except.ok () →
        accel = Except.error e →
        (SenseHat.new humDev presDev accel scrn).1 = Except.error e) ∧
      (∀ (c : Hts221.Calib) (e : SenseHatError E),
        (Hts221.new humDev).1 = Except.ok c →
        (Lps25h.new presDev).1 = Except.ok () →
        accel = Except.ok () → scrn = Except.error e →
        (SenseHat.new humDev presDev accel scrn).1 = Except.error e) ∧
      (∀ c : Hts221.Calib,
        (Hts221.new humDev).1 = Except.ok c →
        (Lps25h.new presDev).1 = Except.ok () →
        accel = Except.ok () → scrn = Except.ok () →
        (SenseHat.new humDev presDev accel scrn).1 = Except.ok c)) :=
  ⟨fun _ dev => hts221_new_runOps dev,
   fun _ dev => lps25h_new_runOps dev,
   fun _ dev => hts221_get_temperature_runOps dev,
   fun _ dev => hts221_get_humidity_runOps dev,
   fun _ dev => lps25h_get_temp_runOps dev,
   fun _ dev => lps25h_get_pressure_runOps dev,
   fun _ humDev presDev accel scrn =>
     sensehat_new_all_or_nothing humDev presDev accel scrn⟩

/-- The nan-filled calibration an all-zero register file produces
(denominators are zero, so every scalar degenerates to NaN). -/
theorem hts221_new_okZeroDev :
    (Hts221.new okZeroDev).1 =
      Except.ok { temp_m := Fp.nan, temp_c := Fp.nan,
                  hum_m := Fp.nan, hum_c := Fp.nan } := by
  norm_num [Hts221.new, M.bind, M.pure, wr, rd, okZeroDev, Except.map,
    i16le, Fp.ofInt, Fp.div, Fp.sub, Fp.add, Fp.neg, Fp.mul]

/-- Witness for C8: each construction-failure implication exercised at
concrete devices — an always-failing device, an all-zero device, and
failing IMU/screen outcomes. -/
theorem construction_error_short_circuit_witness :
    (SenseHat.new failDev failDev (Except.ok ()) (Except.ok ())).1 =
      Except.error (SenseHatError.I2CError ()) ∧
    (SenseHat.new okZeroDev failDev (Except.ok ()) (Except.ok ())).1 =
      Except.error (SenseHatError.I2CError ()) ∧
    (SenseHat.new okZeroDev okZeroDev
        (Except.error SenseHatError.GenericError) (Except.ok ())).1 =
      Except.error SenseHatError.GenericError ∧
    (SenseHat.new okZeroDev okZeroDev (Except.ok ())
        (Except.error SenseHatError.FramebufferError)).1 =
      Except.error SenseHatError.FramebufferError ∧
    (SenseHat.new okZeroDev okZeroDev (Except.ok ()) (Except.ok ())).1 =
      Except.ok { temp_m := Fp.nan, temp_c := Fp.nan,
                  hum_m := Fp.nan, hum_c := Fp.nan } :=
  ⟨(construction_error_short_circuit.2.2.2.2.2.2 Unit failDev failDev
      (Except.ok ()) (Except.ok ())).1 () rfl,
   (construction_error_short_circuit.2.2.2.2.2.2 Unit okZeroDev failDev
      (Except.ok ()) (Except.ok ())).2.1 _ () hts221_new_okZeroDev rfl,
   (construction_error_short_circuit.2.2.2.2.2.2 Unit okZeroDev okZeroDev
      (Except.error SenseHatError.GenericError) (Except.ok ())).2.2.1 _ _
      hts221_new_okZeroDev rfl rfl,
   (construction_error_short_circuit.2.2.2.2.2.2 Unit okZeroDev okZeroDev
      (Except.ok ()) (Except.error SenseHatError.FramebufferError)).2.2.2.1
      _ _ hts221_new_okZeroDev rfl rfl rfl,
   (construction_error_short_circuit.2.2.2.2.2.2 Unit okZeroDev okZeroDev
      (Except.ok ()) (Except.ok ())).2.2.2.2 _
      hts221_new_okZeroDev rfl rfl rfl⟩

/-- C10. When any facade accessor returns `NotReady`, the only bus
transaction performed is the single status-register read: no
data-output register is read and no write is issued. -/
theorem notready_only_status_read :
    (∀ (E : Type) (dev : Dev E),
      (SenseHat.get_temperature_from_pressure dev).1 =
        Except.error SenseHatError.NotReady →
      (SenseHat.get_temperature_from_pressure dev).2 =
        [BusOp.read Lps25h.REG_STATUS_REG]) ∧
    (∀ (E : Type) (dev : Dev E),
      (SenseHat.get_pressure dev).1 =
        Except.error SenseHatError.NotReady →
      (SenseHat.get_pressure dev).2 =
        [BusOp.read Lps25h.REG_STATUS_REG]) ∧
    (∀ (E : Type) (c : Hts221.Calib) (dev : Dev E),
      (SenseHat.get_temperature_from_humidity c dev).1 =
        Except.error SenseHatError.NotReady →
      (SenseHat.get_temperature_from_humidity c dev).2 =
        [BusOp.read Hts221.REG_STATUS]) ∧
    (∀ (E : Type) (c : Hts221.Calib) (dev : Dev E),
      (SenseHat.get_humidity c dev).1 =
        Except.error SenseHatError.NotReady →
      (SenseHat.get_humidity c dev).2 =
        [BusOp.read Hts221.REG_STATUS]) := by
  refine ⟨fun E dev h => ?_, fun E dev h => ?_, fun E c dev h => ?_,
    fun E c dev h => ?_⟩
  · rcases hs : dev.readReg Lps25h.REG_STATUS_REG with e | s
    · simp [SenseHat.get_temperature_from_pressure, liftDriver,
        Lps25h.status, M.bind, M.throw, rd, Except.map, hs] at h
    · simp only [SenseHat.get_temperature_from_pressure, liftDriver,
        Lps25h.status, Lps25h.get_temp_celcius, Lps25h.get_temp,
        M.bind, M.pure, M.throw, rd, Except.map, hs] at h ⊢
      by_cases hb : (s % 256) &&& 1 ≠ 0
      · rw [if_pos hb] at h
        rcases h1 : dev.readReg Lps25h.REG_TEMP_OUT_L with e | lo
        · simp [h1] at h
        · rcases h2 : dev.readReg Lps25h.REG_TEMP_OUT_H with e | hi <;>
            simp [h1, h2] at h
      · rw [if_neg hb]
        simp
  · rcases hs : dev.readReg Lps25h.REG_STATUS_REG with e | s
    · simp [SenseHat.get_pressure, liftDriver, Lps25h.status, M.bind,
        M.throw, rd, Except.map, hs] at h
    · simp only [SenseHat.get_pressure, liftDriver, Lps25h.status,
        Lps25h.get_pressure_hpa, Lps25h.get_pressure, M.bind, M.pure,
        M.throw, rd, Except.map, hs] at h ⊢
      by_cases hb : (s % 256) &&& 2 ≠ 0
      · rw [if_pos hb] at h
        rcases h1 : dev.readReg Lps25h.REG_PRESS_OUT_XL with e | b0
        · simp [h1] at h
        · rcases h2 : dev.readReg Lps25h.REG_PRESS_OUT_L with e | b1
          · simp [h1, h2] at h
          · rcases h3 : dev.readReg Lps25h.REG_PRESS_OUT_H with e | b2 <;>
              simp [h1, h2, h3] at h
      · rw [if_neg hb]
        simp
  · rcases hs : dev.readReg Hts221.REG_STATUS with e | s
    · simp [SenseHat.get_temperature_from_humidity, liftDriver,
        Hts221.status, M.bind, M.throw, rd, Except.map, hs] at h
    · simp only [SenseHat.get_temperature_from_humidity, liftDriver,
        Hts221.status, Hts221.get_temperature_celcius,
        Hts221.get_temperature, M.bind, M.pure, M.throw, rd,
        Except.map, hs] at h ⊢
      by_cases hb : (s % 256) &&& 1 ≠ 0
      · rw [if_pos hb] at h
        rcases h1 : dev.readReg Hts221.REG_TEMP_OUT_L with e | lo
        · simp [h1] at h
        · rcases h2 : dev.readReg Hts221.REG_TEMP_OUT_H with e | hi <;>
            simp [h1, h2] at h
      · rw [if_neg hb]
        simp
  · rcases hs : dev.readReg Hts221.REG_STATUS with e | s
    · simp [SenseHat.get_humidity, liftDriver, Hts221.status, M.bind,
        M.throw, rd, Except.map, hs] at h
    · simp only [SenseHat.get_humidity, liftDriver, Hts221.status,
        Hts221.get_relative_humidity_percent,
        Hts221.get_relative_humidity, M.bind, M.pure, M.throw, rd,
        Except.map, hs] at h ⊢
      by_cases hb : (s % 256) &&& 2 ≠ 0
      · rw [if_pos hb] at h
        rcases h1 : dev.readReg Hts221.REG_HUMIDITY_OUT_L with e | lo
        · simp [h1] at h
        · rcases h2 : dev.readReg Hts221.REG_HUMIDITY_OUT_H with e | hi <;>
            simp [h1, h2] at h
      · rw [if_neg hb]
        simp

/-- Witness for C10: at an all-zero register file every accessor
returns `NotReady`, and the theorem yields the status-read-only
traces. -/
theorem notready_only_status_read_witness :
    (SenseHat.get_temperature_from_pressure
        (devOfRegs fun _ => 0)).2 = [BusOp.read Lps25h.REG_STATUS_REG] ∧
    (SenseHat.get_pressure (devOfRegs fun _ => 0)).2 =
      [BusOp.read Lps25h.REG_STATUS_REG] ∧
    (SenseHat.get_temperature_from_humidity scenarioCalib
        (devOfRegs fun _ => 0)).2 = [BusOp.read Hts221.REG_STATUS] ∧
    (SenseHat.get_humidity scenarioCalib
        (devOfRegs fun _ => 0)).2 = [BusOp.read Hts221.REG_STATUS] :=
  ⟨notready_only_status_read.1 Empty (devOfRegs fun _ => 0) rfl,
   notready_only_status_read.2.1 Empty (devOfRegs fun _ => 0) rfl,
   notready_only_status_read.2.2.1 Empty scenarioCalib
     (devOfRegs fun _ => 0) rfl,
   notready_only_status_read.2.2.2 Empty scenarioCalib
     (devOfRegs fun _ => 0) rfl⟩

/-- Negation preserves (non-)finiteness. -/
theorem Fp.finite_neg (a : Fp) : (Fp.neg a).finite = a.finite := by
  cases a <;> rfl

/-- A sum with a non-finite operand is non-finite. -/
theorem Fp.add_nonfinite (a b : Fp)
    (h : a.finite = false ∨ b.finite = false) :
    (a.add b).finite = false := by
  cases a <;> cases b <;> simp_all [Fp.add, Fp.finite]

/-- A product with a non-finite operand is non-finite. -/
theorem Fp.mul_nonfinite (a b : Fp)
    (h : a.finite = false ∨ b.finite = false) :
    (a.mul b).finite = false := by
  cases a <;> cases b <;> simp_all [Fp.mul, Fp.finite] <;>
    split_ifs <;> simp [Fp.finite]

/-- A difference with a non-finite operand is non-finite. -/
theorem Fp.sub_nonfinite (a b : Fp)
    (h : a.finite = false ∨ b.finite = false) :
    (a.sub b).finite = false := by
  rw [Fp.sub]
  apply Fp.add_nonfinite
  rcases h with h | h
  · exact Or.inl h
  · rw [Or.comm]
    exact Or.inl (by rw [Fp.finite_neg]; exact h)

/-- Division by (positive-signed) zero never yields a finite value:
it is NaN or a signed infinity. -/
theorem Fp.div_fin_zero_nonfinite (x : Fp) :
    (x.div (Fp.fin 0)).finite = false := by
  cases x <;> simp only [Fp.div, Fp.finite] <;> split_ifs <;>
    simp [Fp.finite]

/-- The difference of two equal decoded ADC outputs is exactly zero. -/
theorem Fp.sub_self_ofInt (z : ℤ) :
    (Fp.ofInt z).sub (Fp.ofInt z) = Fp.fin 0 := by
  simp [Fp.ofInt, Fp.sub, Fp.add, Fp.neg]

/-- C9. Degenerate calibration is not surfaced as an error: for
every register contents `Hts221` construction returns `Ok` (there is no
guard on the denominators); whenever the decoded `T1_OUT` equals
`T0_OUT` (resp. `H1_T0_OUT` equals `H0_T0_OUT`) the subsequent
temperature (resp. humidity) conversion still returns `Ok`, but the
value is non-finite (NaN or an infinity) rather than a distinct
error. -/
theorem degenerate_calibration_silent :
    (∀ regs : ℕ → ℕ,
      (Hts221.new (devOfRegs regs)).1 =
        Except.ok
          { temp_m := Hts221.tempSlope regs,
            temp_c := Hts221.tempIntercept regs,
            hum_m := Hts221.humSlope regs,
            hum_c := Hts221.humIntercept regs }) ∧
    (∀ regs : ℕ → ℕ, Hts221.calT1Out regs = Hts221.calT0Out regs →
      ∃ v : Fp,
        (Hts221.get_temperature_celcius
          { temp_m := Hts221.tempSlope regs,
            temp_c := Hts221.tempIntercept regs,
            hum_m := Hts221.humSlope regs,
            hum_c := Hts221.humIntercept regs }
          (devOfRegs regs)).1 = Except.ok v ∧ v.finite = false) ∧
    (∀ regs : ℕ → ℕ, Hts221.calH1T0Out regs = Hts221.calH0T0Out regs →
      ∃ v : Fp,
        (Hts221.get_relative_humidity_percent
          { temp_m := Hts221.tempSlope regs,
            temp_c := Hts221.tempIntercept regs,
            hum_m := Hts221.humSlope regs,
            hum_c := Hts221.humIntercept regs }
          (devOfRegs regs)).1 = Except.ok v ∧ v.finite = false) := by
  refine ⟨fun regs => rfl, fun regs h => ?_, fun regs h => ?_⟩
  · have hm : (Hts221.tempSlope regs).finite = false := by
      rw [Hts221.tempSlope, h, Hts221.calT0Out, Fp.sub_self_ofInt]
      exact Fp.div_fin_zero_nonfinite _
    refine ⟨_, rfl, ?_⟩
    dsimp only
    apply Fp.add_nonfinite
    refine Or.inr ?_
    rw [Hts221.tempIntercept]
    exact Fp.sub_nonfinite _ _
      (Or.inr (Fp.mul_nonfinite _ _ (Or.inl hm)))
  · have hm : (Hts221.humSlope regs).finite = false := by
      rw [Hts221.humSlope, h, Hts221.calH0T0Out, Fp.sub_self_ofInt]
      exact Fp.div_fin_zero_nonfinite _
    refine ⟨_, rfl, ?_⟩
    dsimp only
    apply Fp.add_nonfinite
    refine Or.inr ?_
    rw [Hts221.humIntercept]
    exact Fp.sub_nonfinite _ _
      (Or.inr (Fp.mul_nonfinite _ _ (Or.inl hm)))

/-- Witness for C9: the all-zero register file has `T1_OUT = T0_OUT`
and `H1_T0_OUT = H0_T0_OUT`, construction still succeeds and both
conversions return non-finite values. -/
theorem degenerate_calibration_silent_witness :
    (Hts221.new (devOfRegs fun _ => 0)).1 =
      Except.ok
        { temp_m := Hts221.tempSlope fun _ => 0,
          temp_c := Hts221.tempIntercept fun _ => 0,
          hum_m := Hts221.humSlope fun _ => 0,
          hum_c := Hts221.humIntercept fun _ => 0 } ∧
    (∃ v : Fp,
      (Hts221.get_temperature_celcius
        { temp_m := Hts221.tempSlope fun _ => 0,
          temp_c := Hts221.tempIntercept fun _ => 0,
          hum_m := Hts221.humSlope fun _ => 0,
          hum_c := Hts221.humIntercept fun _ => 0 }
        (devOfRegs fun _ => 0)).1 = Except.ok v ∧ v.finite = false) ∧
    (∃ v : Fp,
      (Hts221.get_relative_humidity_percent
        { temp_m := Hts221.tempSlope fun _ => 0,
          temp_c := Hts221.tempIntercept fun _ => 0,
          hum_m := Hts221.humSlope fun _ => 0,
          hum_c := Hts221.humIntercept fun _ => 0 }
        (devOfRegs fun _ => 0)).1 = Except.ok v ∧ v.finite = false) :=
  ⟨degenerate_calibration_silent.1 (fun _ => 0),
   degenerate_calibration_silent.2.1 (fun _ => 0) rfl,
   degenerate_calibration_silent.2.2 (fun _ => 0) rfl⟩

end SenseHatSpec
